import Mathlib

/-!
Verification of the metabolic-tracker core (`metabolic_app.py`):
the glucose unit converter and the metric deriver `prepare_df_plot`.
Numeric columns are modelled over `ℚ`; the division that produces the
GKI column is modelled with IEEE-style signed infinities and NaN so that
division by a zero ketone value is represented faithfully.
-/

/-- Molar mass constant of glucose used by the source, `18.01559`. -/
def M : ℚ := 18.01559

/-- `toMmol(mgdl) = mgdl / M` (inline in the source at line 74). -/
def toMmol (x : ℚ) : ℚ := x / M

/-- `toMgdl(mmol) = mmol * M` (inline in the source at line 75). -/
def toMgdl (x : ℚ) : ℚ := x * M

/-- One input row of the data frame: a combined timestamp string and the
two numeric columns `Glycémie` and `Cétonémie`. -/
structure Reading where
  datetime : String
  glycemie : ℚ
  cetonemie : ℚ
deriving DecidableEq, Repr

/-- Result of a float division: either a finite value or an IEEE special
value, as pandas produces for division by zero. -/
inductive FVal where
  | finite (q : ℚ)
  | posInf
  | negInf
  | nan
deriving DecidableEq, Repr

/-- IEEE-style division of two finite values: a nonzero denominator gives
the exact quotient, a zero denominator gives `±inf` (or `nan` for `0/0`). -/
def fdiv (a b : ℚ) : FVal :=
  if b = 0 then
    if a = 0 then FVal.nan
    else if 0 < a then FVal.posInf
    else FVal.negInf
  else FVal.finite (a / b)

/-- Whether a float-division result is a finite number. -/
def FVal.isFinite : FVal → Bool
  | FVal.finite _ => true
  | _ => false

/-- One output row of `prepare_df_plot`: the copied input columns plus
`Glycémie_affichée`, `Cétonémie_affichée` and `GKI`. -/
structure DerivedRow where
  datetime : String
  glycemie : ℚ
  cetonemie : ℚ
  glycemie_affichee : ℚ
  cetonemie_affichee : ℚ
  gki : FVal
deriving DecidableEq, Repr

/-- The GKI glucose component `gly_mmol` (source lines 49-57): in
`Full mmol` mode convert mg/dL readings to mmol/L and pass mmol/L ones
through; in any other mode re-express the value in mg/dL according to
`unit_glucose` and then divide by `M`. -/
def gly_mmol_of (unit_glucose gki_mode : String) (g : ℚ) : ℚ :=
  if gki_mode = "Full mmol" then
    if unit_glucose = "mg/dL" then g / M else g
  else
    (if unit_glucose = "mg/dL" then g else g * M) / M

/-- Per-row body of `prepare_df_plot` (source lines 40-59): display
columns and the GKI quotient. The `unit_ketone` and `debug` parameters
are accepted but unused, as in the source. -/
def prepare_row (unit_glucose unit_ketone gki_mode : String) (debug : Bool)
    (r : Reading) : DerivedRow :=
  { datetime := r.datetime
    glycemie := r.glycemie
    cetonemie := r.cetonemie
    glycemie_affichee :=
      if unit_glucose = "mmol/L" then r.glycemie / M else r.glycemie
    cetonemie_affichee := r.cetonemie
    gki := fdiv (gly_mmol_of unit_glucose gki_mode r.glycemie) r.cetonemie }

/-- `prepare_df_plot(df, unit_glucose, unit_ketone, gki_mode, debug)`
(source lines 39-64): all column operations are row-wise, so the data
frame computation is the per-row body mapped over the rows. -/
def prepare_df_plot (df : List Reading)
    (unit_glucose unit_ketone gki_mode : String) (debug : Bool) :
    List DerivedRow :=
  df.map (prepare_row unit_glucose unit_ketone gki_mode debug)

/-! ### Shared facts about the molar-mass constant -/

theorem M_ne_zero : M ≠ 0 := by norm_num [M]

theorem M_ne_one : M ≠ 1 := by norm_num [M]

/-! ### Claims -/

/-- Claim C1, counterexample: for the stored value `glucose_raw = 0` the
two Standard-mode branches produce the SAME numeric result (both `0`),
so the branches do not differ for every reading. -/
theorem C1_counterexample :
    gly_mmol_of "mg/dL" "Standard (mg/dL/mmol)" 0 =
      gly_mmol_of "mmol/L" "Standard (mg/dL/mmol)" 0 := by
  show (0 : ℚ) / M = 0 * M / M
  norm_num

/-- Claim C1 (amended): in Standard mode the GKI glucose component is
`glucose_raw / M` on the mg/dL branch and `glucose_raw * M / M =
glucose_raw` on the mmol/L branch, and for every reading with a nonzero
stored glucose value the two branches produce different numeric
results. -/
theorem C1_standard_branches (g : ℚ) (h : g ≠ 0) :
    gly_mmol_of "mg/dL" "Standard (mg/dL/mmol)" g = g / M ∧
    gly_mmol_of "mmol/L" "Standard (mg/dL/mmol)" g = g ∧
    gly_mmol_of "mg/dL" "Standard (mg/dL/mmol)" g ≠
      gly_mmol_of "mmol/L" "Standard (mg/dL/mmol)" g := by
  have h2 : gly_mmol_of "mmol/L" "Standard (mg/dL/mmol)" g = g := by
    show g * M / M = g
    exact mul_div_cancel_right₀ g M_ne_zero
  refine ⟨rfl, h2, ?_⟩
  rw [h2]
  show g / M ≠ g
  intro hc
  have h3 : g = g * M := (div_eq_iff M_ne_zero).mp hc
  have h4 : g * 1 = g * M := by rw [mul_one]; exact h3
  exact M_ne_one (mul_left_cancel₀ h h4).symm

/-- Witness for C1 at the concrete stored value `90`. -/
theorem C1_standard_branches_witness :
    (90 : ℚ) ≠ 0 ∧
      (gly_mmol_of "mg/dL" "Standard (mg/dL/mmol)" 90 = 90 / M ∧
       gly_mmol_of "mmol/L" "Standard (mg/dL/mmol)" 90 = 90 ∧
       gly_mmol_of "mg/dL" "Standard (mg/dL/mmol)" 90 ≠
         gly_mmol_of "mmol/L" "Standard (mg/dL/mmol)" 90) :=
  ⟨by norm_num, C1_standard_branches 90 (by norm_num)⟩

/-- Claim C2: in Full mmol mode the GKI glucose component is
`toMmol(glucose_raw)` on the mg/dL branch and the unchanged
`glucose_raw` on the mmol/L branch. -/
theorem C2_fullmmol_component (g : ℚ) :
    gly_mmol_of "mg/dL" "Full mmol" g = toMmol g ∧
    gly_mmol_of "mmol/L" "Full mmol" g = g :=
  ⟨rfl, rfl⟩

/-- Claim C3, counterexample: for the single reading with
`glucose_raw = 90` and `ketone_raw = 1.5` in Standard mode the computed
GKI is the finite value `(90 / M) / 1.5`, and that value is NOT close to
`2.9974`: it differs from it by more than `0.33`. -/
theorem C3_counterexample :
    (prepare_df_plot [⟨"01/01/2024 12:00", 90, 3 / 2⟩] "mg/dL" "mmol/L"
        "Standard (mg/dL/mmol)" false).map (fun d => d.gki) =
      [FVal.finite (90 / M / (3 / 2))] ∧
    (33 : ℚ) / 100 ≤ |90 / M / (3 / 2) - 29974 / 10000| := by
  constructor
  · norm_num [prepare_df_plot, prepare_row, gly_mmol_of, fdiv, M]
  · rw [abs_of_pos (by norm_num [M])]
    norm_num [M]

/-- Claim C3 (amended): for the single reading with `glucose_raw = 90`
and `ketone_raw = 1.5` in Standard mode the computed GKI equals
`(90 / 18.01559) / 1.5`, which is approximately `3.3304`, within
`0.001`. -/
theorem C3_standard_single_reading :
    (prepare_df_plot [⟨"01/01/2024 12:00", 90, 3 / 2⟩] "mg/dL" "mmol/L"
        "Standard (mg/dL/mmol)" false).map (fun d => d.gki) =
      [FVal.finite (90 / M / (3 / 2))] ∧
    |90 / M / (3 / 2) - 33304 / 10000| < (1 : ℚ) / 1000 := by
  constructor
  · norm_num [prepare_df_plot, prepare_row, gly_mmol_of, fdiv, M]
  · rw [abs_sub_lt_iff]
    constructor <;> norm_num [M]

/-- Claim C4: for the two readings `(01/01/2024 08:00, 90, 1.5)` and
`(02/01/2024 08:00, 108, 2.0)` in Standard mode with mg/dL glucose unit,
the output GKI sequence is `[(90 / M) / 1.5, (108 / M) / 2]` in input
order, approximately `[3.330, 2.998]` within `0.001`. -/
theorem C4_standard_two_readings :
    (prepare_df_plot
        [⟨"01/01/2024 08:00", 90, 3 / 2⟩, ⟨"02/01/2024 08:00", 108, 2⟩]
        "mg/dL" "mmol/L" "Standard (mg/dL/mmol)" false).map
        (fun d => d.gki) =
      [FVal.finite (90 / M / (3 / 2)), FVal.finite (108 / M / 2)] ∧
    |90 / M / (3 / 2) - 3330 / 1000| < (1 : ℚ) / 1000 ∧
    |108 / M / 2 - 2998 / 1000| < (1 : ℚ) / 1000 := by
  refine ⟨?_, ?_, ?_⟩
  · norm_num [prepare_df_plot, prepare_row, gly_mmol_of, fdiv, M]
  · rw [abs_sub_lt_iff]
    constructor <;> norm_num [M]
  · rw [abs_sub_lt_iff]
    constructor <;> norm_num [M]

/-- Claim C5: for every `x` in the range 20 to 600 mg/dL, the round trip
`toMgdl(toMmol(x)) = (x / M) * M` reproduces `x` exactly in exact
rational arithmetic, hence in particular to within `1e-6` relative
tolerance. -/
theorem C5_roundtrip (x : ℚ) (h1 : 20 ≤ x) (h2 : x ≤ 600) :
    toMgdl (toMmol x) = x ∧
      |toMgdl (toMmol x) - x| ≤ x / 1000000 := by
  have he : toMgdl (toMmol x) = x := div_mul_cancel₀ x M_ne_zero
  refine ⟨he, ?_⟩
  rw [he, sub_self, abs_zero]
  linarith

/-- Witness for C5 at the concrete value `90`. -/
theorem C5_roundtrip_witness :
    (20 : ℚ) ≤ 90 ∧ (90 : ℚ) ≤ 600 ∧
      (toMgdl (toMmol 90) = 90 ∧
        |toMgdl (toMmol 90) - 90| ≤ 90 / 1000000) :=
  ⟨by norm_num, by norm_num, C5_roundtrip 90 (by norm_num) (by norm_num)⟩

/-- Claim C6: for every reading and configuration, the displayed glucose
column is `glucose_raw / M` when the glucose unit is mmol/L and the
unchanged `glucose_raw` otherwise, and the displayed ketone column is
the unchanged `ketone_raw` for every value of the ketone unit. -/
theorem C6_display_columns (df : List Reading)
    (unit_glucose unit_ketone gki_mode : String) (debug : Bool) :
    (prepare_df_plot df unit_glucose unit_ketone gki_mode debug).map
        (fun d => d.glycemie_affichee) =
      df.map (fun r =>
        if unit_glucose = "mmol/L" then r.glycemie / M else r.glycemie) ∧
    (prepare_df_plot df unit_glucose unit_ketone gki_mode debug).map
        (fun d => d.cetonemie_affichee) =
      df.map (fun r => r.cetonemie) := by
  constructor <;>
    simp [prepare_df_plot, prepare_row, List.map_map, Function.comp]

/-- Claim C7, counterexample: the reading with `glucose_raw = 90` and
the negative ketone value `-1.5 <= 0` yields a FINITE GKI (the finite
quotient `(90 / M) / (-1.5)`), not a non-finite value as claimed. -/
theorem C7_counterexample :
    ((-3 : ℚ) / 2 ≤ 0) ∧
      ((prepare_row "mg/dL" "mmol/L" "Standard (mg/dL/mmol)" false
          ⟨"01/01/2024 08:00", 90, -3 / 2⟩).gki).isFinite = true := by
  constructor
  · norm_num
  · show (fdiv (90 / M) (-3 / 2)).isFinite = true
    rw [fdiv, if_neg (by norm_num : (-3 : ℚ) / 2 ≠ 0)]
    rfl

/-- Claim C7 (amended): a reading with `ketone_raw <= 0` is neither
rejected nor dropped: the output is exactly one derived row whose GKI is
the unguarded quotient; that quotient is non-finite when
`ketone_raw = 0`, and is the finite value
`gly_mmol / ketone_raw` when `ketone_raw < 0`. -/
theorem C7_nonpositive_ketone (dt : String) (g k : ℚ)
    (unit_glucose unit_ketone gki_mode : String) (debug : Bool)
    (hk : k ≤ 0) :
    prepare_df_plot [⟨dt, g, k⟩] unit_glucose unit_ketone gki_mode debug =
      [prepare_row unit_glucose unit_ketone gki_mode debug ⟨dt, g, k⟩] ∧
    (prepare_row unit_glucose unit_ketone gki_mode debug ⟨dt, g, k⟩).gki =
      fdiv (gly_mmol_of unit_glucose gki_mode g) k ∧
    (k = 0 →
      ((prepare_row unit_glucose unit_ketone gki_mode debug
          ⟨dt, g, k⟩).gki).isFinite = false) ∧
    (k < 0 →
      (prepare_row unit_glucose unit_ketone gki_mode debug
          ⟨dt, g, k⟩).gki =
        FVal.finite (gly_mmol_of unit_glucose gki_mode g / k)) := by
  refine ⟨rfl, rfl, ?_, ?_⟩
  · intro h0
    show (fdiv (gly_mmol_of unit_glucose gki_mode g) k).isFinite = false
    rw [h0]
    by_cases ha : gly_mmol_of unit_glucose gki_mode g = 0
    · simp [fdiv, ha, FVal.isFinite]
    · by_cases hb : 0 < gly_mmol_of unit_glucose gki_mode g
      · simp [fdiv, ha, hb, FVal.isFinite]
      · simp [fdiv, ha, hb, FVal.isFinite]
  · intro hlt
    show fdiv (gly_mmol_of unit_glucose gki_mode g) k =
      FVal.finite (gly_mmol_of unit_glucose gki_mode g / k)
    rw [fdiv, if_neg (ne_of_lt hlt)]

/-- Witness for C7 at the concrete reading with ketone value `0`. -/
theorem C7_nonpositive_ketone_witness :
    ((0 : ℚ) ≤ 0) ∧
      (prepare_df_plot [⟨"01/01/2024 08:00", 90, 0⟩] "mg/dL" "mmol/L"
          "Full mmol" false =
        [prepare_row "mg/dL" "mmol/L" "Full mmol" false
          ⟨"01/01/2024 08:00", 90, 0⟩] ∧
      (prepare_row "mg/dL" "mmol/L" "Full mmol" false
          ⟨"01/01/2024 08:00", 90, 0⟩).gki =
        fdiv (gly_mmol_of "mg/dL" "Full mmol" 90) 0 ∧
      ((0 : ℚ) = 0 →
        ((prepare_row "mg/dL" "mmol/L" "Full mmol" false
            ⟨"01/01/2024 08:00", 90, 0⟩).gki).isFinite = false) ∧
      ((0 : ℚ) < 0 →
        (prepare_row "mg/dL" "mmol/L" "Full mmol" false
            ⟨"01/01/2024 08:00", 90, 0⟩).gki =
          FVal.finite (gly_mmol_of "mg/dL" "Full mmol" 90 / 0))) :=
  ⟨le_refl 0,
    C7_nonpositive_ketone "01/01/2024 08:00" 90 0 "mg/dL" "mmol/L"
      "Full mmol" false (le_refl 0)⟩

/-- Claim C8: for every input sequence and every configuration, the
output has exactly the same length as the input and carries the same
timestamps in the same order: no filtering, no reordering, no row
dropping. -/
theorem C8_order_preservation (df : List Reading)
    (unit_glucose unit_ketone gki_mode : String) (debug : Bool) :
    (prepare_df_plot df unit_glucose unit_ketone gki_mode debug).length =
      df.length ∧
    (prepare_df_plot df unit_glucose unit_ketone gki_mode debug).map
        (fun d => d.datetime) =
      df.map (fun r => r.datetime) := by
  constructor <;>
    simp [prepare_df_plot, prepare_row, List.map_map, Function.comp]

/-- Claim C9: for every mode string other than the exact string
`Full mmol` — including the UI label `Standard (mg/dL/mmol)` and any
arbitrary unrecognized string — the function silently computes the
Standard path: the output coincides with the output for the UI label and
every GKI is the two-step Standard quotient. -/
theorem C9_unrecognized_mode_standard (df : List Reading)
    (unit_glucose unit_ketone gki_mode : String) (debug : Bool)
    (h : gki_mode ≠ "Full mmol") :
    prepare_df_plot df unit_glucose unit_ketone gki_mode debug =
      prepare_df_plot df unit_glucose unit_ketone
        "Standard (mg/dL/mmol)" debug ∧
    (prepare_df_plot df unit_glucose unit_ketone gki_mode debug).map
        (fun d => d.gki) =
      df.map (fun r =>
        fdiv ((if unit_glucose = "mg/dL" then r.glycemie
               else r.glycemie * M) / M) r.cetonemie) := by
  constructor
  · simp [prepare_df_plot, prepare_row, gly_mmol_of, h]
  · simp [prepare_df_plot, prepare_row, gly_mmol_of, h, List.map_map,
      Function.comp]

/-- Witness for C9 at the arbitrary unrecognized mode string `GKI`. -/
theorem C9_unrecognized_mode_standard_witness :
    ("GKI" ≠ "Full mmol") ∧
      (prepare_df_plot [⟨"01/01/2024 08:00", 90, 3 / 2⟩] "mg/dL" "mmol/L"
          "GKI" false =
        prepare_df_plot [⟨"01/01/2024 08:00", 90, 3 / 2⟩] "mg/dL"
          "mmol/L" "Standard (mg/dL/mmol)" false ∧
      (prepare_df_plot [⟨"01/01/2024 08:00", 90, 3 / 2⟩] "mg/dL" "mmol/L"
          "GKI" false).map (fun d => d.gki) =
        ([⟨"01/01/2024 08:00", 90, 3 / 2⟩] : List Reading).map (fun r =>
          fdiv ((if "mg/dL" = "mg/dL" then r.glycemie
                 else r.glycemie * M) / M) r.cetonemie)) :=
  ⟨by decide,
    C9_unrecognized_mode_standard [⟨"01/01/2024 08:00", 90, 3 / 2⟩]
      "mg/dL" "mmol/L" "GKI" false (by decide)⟩

/-- Claim C10: the ketone-unit parameter has no influence on any field
of the result: for every input and any two ketone-unit strings, the
outputs are identical. -/
theorem C10_ketone_unit_noninterference (df : List Reading)
    (unit_glucose gki_mode : String) (ku1 ku2 : String) (debug : Bool) :
    prepare_df_plot df unit_glucose ku1 gki_mode debug =
      prepare_df_plot df unit_glucose ku2 gki_mode debug := rfl
